import Mathlib

/-!
Verification of the MLflow ingestion source
(`metadata-ingestion/src/datahub/ingestion/source/mlflow.py`).

The Python module is shallowly embedded: dictionaries become association
lists in insertion order, Python truthiness of optional values is modelled
explicitly (`None` and falsy values such as `0` and `""` are distinguished
from genuinely present values), generators become explicit state, and the
wall clock (`time.time()`) becomes an explicit parameter.
-/

namespace Mlflow

/-! ## Python semantics helpers -/

/-- Python emptiness test for a string, phrased over its character list. -/
def strEmpty (s : String) : Bool :=
  s.toList.isEmpty

/-- Python truthiness of an optional string: `None` and `""` are falsy. -/
def truthyStr : Option String → Bool
  | none => false
  | some s => !strEmpty s

/-- Python truthiness of an optional integer: `None` and `0` are falsy. -/
def truthyInt : Option Int → Bool
  | none => false
  | some n => n ≠ 0

/-- Python `s.rstrip('/')`: remove all trailing slash characters. -/
def pyRstripSlash (s : String) : String :=
  String.mk ((s.toList.reverse.dropWhile (fun c => c = '/')).reverse)

/-- Python `s.startswith(p)`, phrased over character lists. -/
def pyStartswith (s p : String) : Bool :=
  p.toList.isPrefixOf s.toList

/-- Python `s.zfill(w)` for the digit strings used here (no sign handling,
which never arises for MLflow version numbers). -/
def pyZfill (s : String) (w : Nat) : String :=
  if s.length ≥ w then s
  else String.mk (List.replicate (w - s.length) '0') ++ s

/-- Python `d.pop(k, None)` restricted to its effect on the dictionary:
remove the binding for `k`, keeping insertion order of the rest. -/
def dictPop (d : List (String × String)) (k : String) : List (String × String) :=
  d.filter (fun p => p.1 ≠ k)

/-- Python `d[k] = v`: update in place if the key exists, else append
(insertion order semantics of `dict`). -/
def dictSet (d : List (String × String)) (k v : String) : List (String × String) :=
  if d.any (fun p => p.1 = k) then
    d.map (fun p => if p.1 = k then (k, v) else p)
  else d ++ [(k, v)]

/-- Python `d.get(k)`. -/
def dictGet (d : List (String × String)) (k : String) : Option String :=
  (d.find? (fun p => p.1 = k)).map (fun p => p.2)

/-! ## Paginated traversal (`_traverse_mlflow_search_func`)

The MLflow `search_*` capabilities return a `PagedList`: a page of items
plus a continuation token.  A paginated source is modelled as the sequence
of pages the capability returns on successive calls. -/

/-- One `PagedList` returned by an MLflow `search_*` call: the items of the
page (`to_list()`) and the continuation token (`token`). -/
structure SearchPage (α : Type) where
  items : List α
  token : Option String
deriving DecidableEq

/-- The loop condition `if not next_page_token: return` of
`_traverse_mlflow_search_func`: a missing or empty token is falsy and stops
the traversal. -/
def tokenFalsy : Option String → Bool
  | none => true
  | some s => strEmpty s

/-- `_traverse_mlflow_search_func`, run to completion over the pages the
search capability returns on successive calls.  Returns the items yielded
(in order) and the number of fetch calls performed.  The `[]` case models a
capability with no page left to return; the loop in the source never reaches
it when the page list is well formed (last token falsy). -/
def traverse_mlflow_search_func {α : Type} : List (SearchPage α) → List α × Nat
  | [] => ([], 0)
  | p :: rest =>
    if tokenFalsy p.token then (p.items, 1)
    else
      let r := traverse_mlflow_search_func rest
      (p.items ++ r.1, r.2 + 1)

/-- Well-formed paginated source: at least one page, every page before the
last carries a truthy continuation token, and the last page's token is
falsy (absent or empty). -/
def wfPages {α : Type} : List (SearchPage α) → Bool
  | [] => false
  | [p] => tokenFalsy p.token
  | p :: q :: rest => !tokenFalsy p.token && wfPages (q :: rest)

/-- `_traverse_mlflow_search_func` with a fallible page-fetch capability:
call `k` either raises (`Except.error`) or returns a page.  The result
records the items delivered before any failure, the propagated exception if
one occurred, and the number of fetch calls performed.  An exception raised
inside the generator aborts it: items already yielded stay delivered, and
no further fetch happens. -/
def traverse_mlflow_search_func_exc {α ε : Type} :
    List (Except ε (SearchPage α)) → List α × Option ε × Nat
  | [] => ([], none, 0)
  | Except.error e :: _ => ([], some e, 1)
  | Except.ok p :: rest =>
    if tokenFalsy p.token then (p.items, none, 1)
    else
      let r := traverse_mlflow_search_func_exc rest
      (p.items ++ r.1, r.2.1, r.2.2 + 1)

/-! ### Generator-resumption model for laziness

`_traverse_mlflow_search_func` is a Python generator: work happens only
when the consumer requests the next item.  Its suspension state is the
unconsumed remainder of the current page's `yield from`, the pages the
capability has yet to return, and whether the loop will fetch again once
the current page is drained (i.e. whether the last token seen was truthy;
initially the loop always fetches). -/

structure GenState (α : Type) where
  buffer : List α
  remaining : List (SearchPage α)
  needFetch : Bool
deriving DecidableEq

/-- The fetch part of one generator resumption: the loop body runs
fetches (skipping pages whose item list is empty, exactly as `yield from`
over an empty page does) until it can yield an item or sees a falsy token
and returns.  The `[]` case models a capability with no page left; the
source would block on it, and it is unreachable for well-formed sources. -/
def genFetchLoop {α : Type} : List (SearchPage α) → Option α × GenState α × Nat
  | [] => (none, ⟨[], [], false⟩, 1)
  | p :: rest =>
    match p.items with
    | [] =>
      if tokenFalsy p.token then (none, ⟨[], rest, false⟩, 1)
      else
        let r := genFetchLoop rest
        (r.1, r.2.1, r.2.2 + 1)
    | x :: xs => (some x, ⟨xs, rest, !tokenFalsy p.token⟩, 1)

/-- One consumer request (`next()`) against the suspended generator: the
yielded item if any, the new suspension state, and how many fetch calls this
resumption performed.  With a non-empty buffer the generator is inside
`yield from` and fetches nothing; with an empty buffer and `needFetch =
false` it executes `return`; otherwise it runs the fetch loop. -/
def genStep {α : Type} (g : GenState α) : Option α × GenState α × Nat :=
  match g.buffer with
  | x :: xs => (some x, ⟨xs, g.remaining, g.needFetch⟩, 0)
  | [] =>
    match g.needFetch with
    | false => (none, ⟨[], g.remaining, false⟩, 0)
    | true => genFetchLoop g.remaining

/-! ## MLflow entities (read from the remote tracking system) -/

/-- `mlflow.entities.Experiment`: the fields the source reads.  `tags` is
the experiment's own tag dictionary (an association list in insertion
order). -/
structure Experiment where
  experiment_id : String
  name : String
  tags : List (String × String)
  artifact_location : String
deriving DecidableEq

/-- `run.info` fields read by the source.  `start_time` and `end_time` are
optional millisecond timestamps; `run_name` and `user_id` may be absent. -/
structure RunInfo where
  run_id : String
  run_name : Option String
  start_time : Option Int
  end_time : Option Int
  status : String
  user_id : Option String
  artifact_uri : String
deriving DecidableEq

/-- `run.data`: metrics and params.  The source stringifies every value
with `str(...)`; values are carried here already as the strings that
stringification produces. -/
structure RunData where
  metrics : List (String × String)
  params : List (String × String)
deriving DecidableEq

/-- `mlflow.entities.Run`. -/
structure Run where
  info : RunInfo
  data : RunData
deriving DecidableEq

/-- `mlflow.entities.model_registry.ModelVersion`.  `version` is the
version number as a string (MLflow stores it as `str`). -/
structure ModelVersion where
  name : String
  version : String
  creation_timestamp : Int
  last_updated_timestamp : Int
  user_id : Option String
  run_id : Option String
  current_stage : String
  description : Option String
  tags : List (String × String)
  aliases : List String
deriving DecidableEq

/-- `mlflow.entities.model_registry.RegisteredModel`. -/
structure RegisteredModel where
  name : String
  description : Option String
  tags : List (String × String)
  creation_timestamp : Int
  last_updated_timestamp : Int
  latest_versions : List ModelVersion
deriving DecidableEq

/-- `MLflowConfig`: the configuration surface the mappers read.  `env`
comes from `EnvConfigMixin` (default `PROD`). -/
structure MLflowConfig where
  model_name_separator : String
  base_external_url : Option String
  env : String
deriving DecidableEq

/-- The tracking client as the mappers see it: `self.client.tracking_uri`
is the resolved tracking URI string. -/
structure MlflowClientModel where
  tracking_uri : String
deriving DecidableEq

/-! ## Emitted aspect records -/

structure AuditStampClass where
  time : Int
  actor : String
deriving DecidableEq

structure TagPropertiesClass where
  name : String
  description : String
  colorHex : String
deriving DecidableEq

structure ContainerPropertiesClass where
  name : String
  description : Option String
  customProperties : List (String × String)
deriving DecidableEq

structure DataProcessInstancePropertiesClass where
  name : String
  created : AuditStampClass
  externalUrl : Option String
  customProperties : List (String × String)
deriving DecidableEq

structure MLTrainingRunPropertiesClass where
  hyperParams : List (String × String)
  trainingMetrics : List (String × String)
  outputUrls : List String
  id : String
deriving DecidableEq

structure DataProcessInstanceRunEventClass where
  status : String
  timestampMillis : Int
  resultType : String
  nativeResultType : String
  durationMillis : Int
deriving DecidableEq

structure MLModelGroupPropertiesClass where
  customProperties : List (String × String)
  description : Option String
  createdTime : Int
  createdActor : Option String
  lastModifiedTime : Int
  lastModifiedActor : Option String
  versionTag : Option String
  versionAttributionTime : Int
  versionAttributionActor : String
deriving DecidableEq

structure VersionSetPropertiesClass where
  latest : String
  versioningScheme : String
deriving DecidableEq

structure VersionPropertiesClass where
  versionTag : String
  versionAttributionTime : Int
  versionAttributionActor : String
  versionSet : String
  sortId : String
  aliases : List String
deriving DecidableEq

structure MLModelPropertiesClass where
  customProperties : List (String × String)
  externalUrl : Option String
  lastModifiedTime : Int
  lastModifiedActor : Option String
  description : Option String
  createdTime : Int
  createdActor : Option String
  hyperParams : Option (List (String × String))
  trainingMetrics : Option (List (String × String))
  tags : List String
  groups : List String
  trainingJobs : List String
deriving DecidableEq

/-- The aspect payload of a workunit (the record kinds the source emits). -/
inductive Aspect where
  | tagProperties (v : TagPropertiesClass)
  | subTypes (typeNames : List String)
  | containerProperties (v : ContainerPropertiesClass)
  | browsePathsV2 (path : List String)
  | dataPlatformInstance (platform : String)
  | dataProcessInstanceProperties (v : DataProcessInstancePropertiesClass)
  | containerOf (containerUrn : String)
  | dataProcessInstanceOutput (outputs : List String)
  | mlTrainingRunProperties (v : MLTrainingRunPropertiesClass)
  | dataProcessInstanceRunEvent (v : DataProcessInstanceRunEventClass)
  | mlModelGroupProperties (v : MLModelGroupPropertiesClass)
  | versionSetProperties (v : VersionSetPropertiesClass)
  | versionProperties (v : VersionPropertiesClass)
  | mlModelProperties (v : MLModelPropertiesClass)
  | globalTags (tags : List String)
deriving DecidableEq

/-- A `MetadataWorkUnit`: one metadata change proposal, the target
identifier plus the aspect payload. -/
structure MetadataWorkUnit where
  entityUrn : String
  aspect : Aspect
deriving DecidableEq

/-! ## Identifier (URN) builders

The `datahub.emitter.mce_builder` helpers and the urn classes are not part
of this repository's sources; the spec fixes their contract. -/

/-- The class attribute `MLflowSource.platform`. -/
def platform : String := "mlflow"

/-- Modelled from the spec: `builder.make_tag_urn` (emitter library, not
under the sources) — a deterministic pure function of the tag name. -/
def builder_make_tag_urn (tag_name : String) : String :=
  "urn:li:tag:" ++ tag_name

/-- Modelled from the spec: `builder.make_ml_model_urn` (emitter library,
not under the sources) — a deterministic pure function of platform name,
model name and environment. -/
def builder_make_ml_model_urn (p model_name env : String) : String :=
  "urn:li:mlModel:(urn:li:dataPlatform:" ++ p ++ "," ++ model_name ++ "," ++ env ++ ")"

/-- Modelled from the spec: `builder.make_ml_model_group_urn` (emitter
library, not under the sources). -/
def builder_make_ml_model_group_urn (p group_name env : String) : String :=
  "urn:li:mlModelGroup:(urn:li:dataPlatform:" ++ p ++ "," ++ group_name ++ "," ++ env ++ ")"

/-- Modelled from the spec: `str(DataPlatformUrn(platform_name))` (urn
library, not under the sources). -/
def dataPlatformUrnStr (p : String) : String :=
  "urn:li:dataPlatform:" ++ p

/-- Modelled from the spec: the urn of a `DataProcessInstance` with a given
id (SDK class, not under the sources) — deterministic in the id. -/
def dataProcessInstanceUrn (id : String) : String :=
  "urn:li:dataProcessInstance:" ++ id

/-- Modelled from the spec: the container urn derived from
`ContainerKeyWithId` (mcp_builder, not under the sources) — a deterministic
pure function of the key's platform and id fields. -/
def containerKeyUrn (p id : String) : String :=
  "urn:li:container:(" ++ p ++ "," ++ id ++ ")"

/-- Modelled from the spec: `str(VersionSetUrn(id, entity_type))` (urn
library, not under the sources). -/
def versionSetUrnStr (id entity_type : String) : String :=
  "urn:li:versionSet:(" ++ id ++ "," ++ entity_type ++ ")"

/-- Modelled from the spec: `MLAssetSubTypes.MLFLOW_EXPERIMENT` (subtypes
module, not under the sources) — a fixed subtype tag. -/
def mlflowExperimentSubtype : String := "ML Experiment"

/-- Modelled from the spec: `MLAssetSubTypes.MLFLOW_TRAINING_RUN` (subtypes
module, not under the sources) — a fixed subtype tag. -/
def mlflowTrainingRunSubtype : String := "ML Training Run"

/-- Python `s.lower()`, phrased over character lists. -/
def pyLower (s : String) : String :=
  String.mk (s.toList.map Char.toLower)

/-- `_make_stage_tag_name`: `f"{platform}_{stage_name.lower()}"`. -/
def make_stage_tag_name (stage_name : String) : String :=
  platform ++ "_" ++ pyLower stage_name

/-- `_make_stage_tag_urn`. -/
def make_stage_tag_urn (stage_name : String) : String :=
  builder_make_tag_urn (make_stage_tag_name stage_name)

/-- `_make_ml_model_urn`: the model name embedded in the urn is
`f"{model_version.name}{self.config.model_name_separator}{model_version.version}"`. -/
def make_ml_model_urn (cfg : MLflowConfig) (mv : ModelVersion) : String :=
  builder_make_ml_model_urn platform
    (mv.name ++ cfg.model_name_separator ++ mv.version) cfg.env

/-- `_make_ml_model_group_urn`. -/
def make_ml_model_group_urn (cfg : MLflowConfig) (rm : RegisteredModel) : String :=
  builder_make_ml_model_group_urn platform rm.name cfg.env

/-- `_get_version_set_urn`: `VersionSetUrn(id=registered_model.name,
entity_type="mlModel")`. -/
def get_version_set_urn (rm : RegisteredModel) : String :=
  versionSetUrnStr rm.name "mlModel"

/-! ## External-URL construction -/

/-- `_get_base_external_url_from_tracking_uri`: the tracking URI is used
only when it is a string starting with `"http"`. -/
def get_base_external_url_from_tracking_uri (client : MlflowClientModel) : Option String :=
  if pyStartswith client.tracking_uri "http" then some client.tracking_uri else none

/-- `_make_external_url` for a model version:
`base_uri = self.config.base_external_url or self._get_base_external_url_from_tracking_uri()`,
then `if base_uri:` build `f"{base_uri.rstrip('/')}/#/models/{name}/versions/{version}"`. -/
def make_external_url (cfg : MLflowConfig) (client : MlflowClientModel)
    (mv : ModelVersion) : Option String :=
  let base_uri :=
    if truthyStr cfg.base_external_url then cfg.base_external_url
    else get_base_external_url_from_tracking_uri client
  match base_uri with
  | some b =>
    if !strEmpty b then
      some (pyRstripSlash b ++ "/#/models/" ++ mv.name ++ "/versions/" ++ mv.version)
    else none
  | none => none

/-- `_make_external_url_from_run`: uses `self.client.tracking_uri` only
(never the configured base external URL), guarded by `startswith("http")`. -/
def make_external_url_from_run (client : MlflowClientModel)
    (experiment : Experiment) (run : Run) : Option String :=
  let base_uri := client.tracking_uri
  if pyStartswith base_uri "http" then
    some (pyRstripSlash base_uri ++ "/#/experiments/" ++ experiment.experiment_id
      ++ "/runs/" ++ run.info.run_id)
  else none

/-- The external-URL construction rule in the spec's words: if a configured
base URL is present, use it; otherwise fall back to the tracking endpoint
only if it is an HTTP(S) URL (starts with `"http"`); otherwise omit the
link. -/
def specExternalUrlRule (baseUrl : Option String) (trackingUri : String)
    (path : String) : Option String :=
  match baseUrl with
  | some b => some (pyRstripSlash b ++ path)
  | none =>
    if pyStartswith trackingUri "http" then
      some (pyRstripSlash trackingUri ++ path)
    else none

/-! ## Experiment mapping -/

/-- `_get_experiment_custom_properties`.
`experiment_custom_props = getattr(experiment, "tags", {}) or {}` binds the
experiment's own tag dictionary when it is non-empty (Python `or` returns
the left operand when truthy), so the subsequent `pop` and item assignment
mutate the experiment's tags in place; when the tags are empty, `or {}`
yields a fresh dictionary and the experiment is untouched.  Returns the
computed custom properties together with the experiment as it is left
afterwards. -/
def get_experiment_custom_properties (experiment : Experiment) :
    List (String × String) × Experiment :=
  if experiment.tags.isEmpty then
    let props := dictSet (dictPop [] "mlflow.note.content")
      "artifacts_location" experiment.artifact_location
    (props, experiment)
  else
    let props := dictSet (dictPop experiment.tags "mlflow.note.content")
      "artifacts_location" experiment.artifact_location
    (props, { experiment with tags := props })

/-- `_get_experiment_container_workunit`: the four container workunits for
an experiment, together with the experiment as the call leaves it (the
description is read from the tags before the custom-properties computation
runs). -/
def get_experiment_container_workunit (experiment : Experiment) :
    List MetadataWorkUnit × Experiment :=
  let urn := containerKeyUrn (dataPlatformUrnStr platform) experiment.name
  let description := dictGet experiment.tags "mlflow.note.content"
  let r := get_experiment_custom_properties experiment
  ([⟨urn, Aspect.subTypes [mlflowExperimentSubtype]⟩,
    ⟨urn, Aspect.containerProperties ⟨experiment.name, description, r.1⟩⟩,
    ⟨urn, Aspect.browsePathsV2 []⟩,
    ⟨urn, Aspect.dataPlatformInstance (dataPlatformUrnStr platform)⟩],
   r.2)

/-! ## Run mapping -/

/-- `_get_run_metrics`: `MLMetricClass(name=k, value=str(v))` per metric. -/
def get_run_metrics (run : Run) : List (String × String) :=
  run.data.metrics

/-- `_get_run_params`: `MLHyperParamClass(name=k, value=str(v))` per param. -/
def get_run_params (run : Run) : List (String × String) :=
  run.data.params

/-- `_convert_run_result_type`: the three-way status rule (the `type` field
of the returned result). -/
def convert_run_result_type (status : String) : String :=
  if status = "FINISHED" then "SUCCESS"
  else if status = "FAILED" then "FAILURE"
  else "SKIPPED"

/-- The `DataProcessInstanceProperties` record of `_get_run_workunits`.
`created_time = run.info.start_time or int(time.time() * 1000)`: the wall
clock (`now`) is an explicit parameter and is used whenever `start_time` is
falsy (absent or zero).  The name is `run.info.run_name or
run.info.run_id`; the actor is derived from `user_id` when truthy, else
`""`; `getattr(run, "tags", {})` is `{}` because `Run` has no `tags`
attribute. -/
def get_run_properties_workunit (client : MlflowClientModel)
    (experiment : Experiment) (run : Run) (now : Int) : MetadataWorkUnit :=
  let created_time :=
    if truthyInt run.info.start_time then run.info.start_time.getD 0 else now
  let created_actor :=
    if truthyStr run.info.user_id then
      "urn:li:platformResource:" ++ run.info.user_id.getD ""
    else ""
  ⟨dataProcessInstanceUrn run.info.run_id,
   Aspect.dataProcessInstanceProperties
     ⟨(if truthyStr run.info.run_name then run.info.run_name.getD ""
       else run.info.run_id),
      ⟨created_time, created_actor⟩,
      make_external_url_from_run client experiment run,
      []⟩⟩

/-- The optional completion run-event record of `_get_run_workunits`:
guarded by `if run.info.end_time:` (Python truthiness, so an end time of
`0` also skips it); `duration_millis = run.info.end_time -
run.info.start_time` (the source assumes a start time is set whenever an
end time is; an absent start time is modelled as `0` there). -/
def get_run_event_workunit (run : Run) : Option MetadataWorkUnit :=
  if truthyInt run.info.end_time then
    let endTime := run.info.end_time.getD 0
    let duration_millis := endTime - run.info.start_time.getD 0
    some ⟨dataProcessInstanceUrn run.info.run_id,
      Aspect.dataProcessInstanceRunEvent
        ⟨"COMPLETE", endTime, convert_run_result_type run.info.status,
         platform, duration_millis⟩⟩
  else none

/-- `_get_run_workunits`: the full ordered record set for one run.
`model_versions` is the list found by `get_mlflow_model_versions_from_run`;
`now` is the wall clock read when building the properties record. -/
def get_run_workunits (client : MlflowClientModel) (experiment : Experiment)
    (run : Run) (model_versions : List ModelVersion) (cfg : MLflowConfig)
    (now : Int) : List MetadataWorkUnit :=
  let dpiUrn := dataProcessInstanceUrn run.info.run_id
  let experiment_key_urn := containerKeyUrn (dataPlatformUrnStr platform) experiment.name
  [get_run_properties_workunit client experiment run now,
   ⟨dpiUrn, Aspect.containerOf experiment_key_urn⟩]
  ++ (match model_versions with
      | [] => []
      | mv :: _ => [⟨dpiUrn, Aspect.dataProcessInstanceOutput [make_ml_model_urn cfg mv]⟩])
  ++ [⟨dpiUrn, Aspect.mlTrainingRunProperties
        ⟨get_run_params run, get_run_metrics run, [run.info.artifact_uri],
         run.info.run_id⟩⟩]
  ++ (get_run_event_workunit run).toList
  ++ [⟨dpiUrn, Aspect.dataPlatformInstance (dataPlatformUrnStr platform)⟩,
      ⟨dpiUrn, Aspect.subTypes [mlflowTrainingRunSubtype]⟩]

/-! ## Registered-model and model-version mapping -/

/-- `_get_latest_version`: `str(registered_model.latest_versions[0].version)`
when the list is non-empty, else `None`. -/
def get_latest_version (rm : RegisteredModel) : Option String :=
  match rm.latest_versions with
  | [] => none
  | v :: _ => some v.version

/-- `_get_ml_group_workunit`: the `MLModelGroupProperties` record for a
registered model. -/
def get_ml_group_workunit (cfg : MLflowConfig) (rm : RegisteredModel) :
    MetadataWorkUnit :=
  ⟨make_ml_model_group_urn cfg rm,
   Aspect.mlModelGroupProperties
     ⟨rm.tags, rm.description,
      rm.creation_timestamp, none,
      rm.last_updated_timestamp, none,
      get_latest_version rm,
      rm.last_updated_timestamp, "urn:li:corpuser:datahub"⟩⟩

/-- `_get_mlflow_run`: look up the run of a model version when
`model_version.run_id` is truthy.  `get_run` is the client capability. -/
def get_mlflow_run (get_run : String → Run) (mv : ModelVersion) : Option Run :=
  if truthyStr mv.run_id then some (get_run (mv.run_id.getD "")) else none

/-- `_get_ml_model_properties_workunit`: the `MLModelProperties` record for
one model version; hyperparameters, metrics and the training-job
back-reference come from the associated run when there is one. -/
def get_ml_model_properties_workunit (cfg : MLflowConfig)
    (client : MlflowClientModel) (rm : RegisteredModel) (mv : ModelVersion)
    (run : Option Run) : MetadataWorkUnit :=
  let ml_model_group_urn := make_ml_model_group_urn cfg rm
  let ml_model_urn := make_ml_model_urn cfg mv
  let hyperparams := run.map get_run_params
  let training_metrics := run.map get_run_metrics
  let training_jobs :=
    match run with
    | some r => [dataProcessInstanceUrn r.info.run_id]
    | none => []
  let created_actor :=
    if truthyStr mv.user_id then
      some ("urn:li:platformResource:" ++ mv.user_id.getD "")
    else none
  let model_version_tags := mv.tags.map (fun p => p.1 ++ ":" ++ p.2)
  ⟨ml_model_urn,
   Aspect.mlModelProperties
     ⟨mv.tags, make_external_url cfg client mv,
      mv.last_updated_timestamp, none,
      mv.description,
      mv.creation_timestamp, created_actor,
      hyperparams, training_metrics,
      model_version_tags, [ml_model_group_urn], training_jobs⟩⟩

/-- `_get_ml_model_version_properties_workunit`: the `VersionProperties`
record for one model version. -/
def get_ml_model_version_properties_workunit (cfg : MLflowConfig)
    (mv : ModelVersion) (version_set_urn : String) : MetadataWorkUnit :=
  ⟨make_ml_model_urn cfg mv,
   Aspect.versionProperties
     ⟨mv.version, mv.creation_timestamp, "urn:li:corpuser:datahub",
      version_set_urn, pyZfill mv.version 10, mv.aliases⟩⟩

/-- `_get_global_tags_workunit`: bind the model version to the tag of its
current lifecycle stage. -/
def get_global_tags_workunit (cfg : MLflowConfig) (mv : ModelVersion) :
    MetadataWorkUnit :=
  ⟨make_ml_model_urn cfg mv,
   Aspect.globalTags [make_stage_tag_urn mv.current_stage]⟩

/-- `_get_version_latest`: builds the `VersionSetProperties` record from
`registered_model.latest_versions[0]`.  `none` models the `IndexError`
Python raises when the latest-versions list is empty. -/
def get_version_latest (cfg : MLflowConfig) (rm : RegisteredModel)
    (version_set_urn : String) : Option MetadataWorkUnit :=
  match rm.latest_versions with
  | [] => none
  | latest_model_version :: _ =>
    some ⟨version_set_urn,
      Aspect.versionSetProperties
        ⟨make_ml_model_urn cfg latest_model_version, "LEXICOGRAPHIC_STRING"⟩⟩

/-! ## The registered-model emission pipeline (`_get_ml_model_workunits`)

`_get_mlflow_model_versions` returns the generator produced by
`_traverse_mlflow_search_func`; a Python generator can be consumed only
once, so it is modelled by its unconsumed remainder. -/

/-- A Python generator over a known item stream: its unconsumed
remainder. -/
structure PyGen (α : Type) where
  remaining : List α
deriving DecidableEq

/-- Python `list(gen)`: returns every remaining item and leaves the
generator exhausted. -/
def PyGen.drain {α : Type} (g : PyGen α) : List α × PyGen α :=
  (g.remaining, ⟨[]⟩)

/-- The body of `_get_ml_model_workunits` for one registered model.
`search_versions` is the item stream of the model-version search for this
model, `get_run` the `client.get_run` capability.  Following the source:
`model_versions = self._get_mlflow_model_versions(...)` binds the
generator; `if len(list(model_versions)) > 0:` drains it to take its
length; `for model_version in model_versions:` then iterates the already
exhausted generator.  `none` models an uncaught Python exception
(`IndexError` from `_get_version_latest` on an empty latest-versions
list). -/
def get_ml_model_workunits_for_model (cfg : MLflowConfig)
    (client : MlflowClientModel) (rm : RegisteredModel)
    (search_versions : List ModelVersion) (get_run : String → Run) :
    Option (List MetadataWorkUnit) :=
  let version_set_urn := get_version_set_urn rm
  let group_wu := get_ml_group_workunit cfg rm
  let model_versions : PyGen ModelVersion := ⟨search_versions⟩
  let drained := model_versions.drain
  let model_versions := drained.2
  if drained.1.length > 0 then
    let per_version := model_versions.remaining.flatMap (fun mv =>
      let run := get_mlflow_run get_run mv
      [get_ml_model_properties_workunit cfg client rm mv run,
       get_ml_model_version_properties_workunit cfg mv version_set_urn,
       get_global_tags_workunit cfg mv])
    (get_version_latest cfg rm version_set_urn).map
      (fun latest_wu => group_wu :: per_version ++ [latest_wu])
  else some [group_wu]

/-- `_get_ml_model_workunits`: the traversal over all registered models,
flattening each model's records in order. -/
def get_ml_model_workunits (cfg : MLflowConfig) (client : MlflowClientModel)
    (registered_models : List RegisteredModel)
    (search_versions : RegisteredModel → List ModelVersion)
    (get_run : String → Run) : Option (List MetadataWorkUnit) :=
  (registered_models.mapM (fun rm =>
    get_ml_model_workunits_for_model cfg client rm (search_versions rm) get_run)).map
    List.flatten

/-- Discriminator for the three per-version record kinds of the
registered-model pipeline (model properties, version properties, stage-tag
association). -/
def Aspect.isPerVersionRecord : Aspect → Bool
  | Aspect.mlModelProperties _ => true
  | Aspect.versionProperties _ => true
  | Aspect.globalTags _ => true
  | _ => false

/-! ## Concrete fixtures used by the theorems below -/

def cfgDefault : MLflowConfig := ⟨"_", none, "PROD"⟩

def cfgHost : MLflowConfig := ⟨"_", some "http://host", "PROD"⟩

def clientFile : MlflowClientModel := ⟨"file:/mlruns"⟩

def expPlain : Experiment := ⟨"0", "experiment0", [], "s3://artifacts"⟩

def expNote : Experiment :=
  ⟨"0", "experiment0", [("mlflow.note.content", "note"), ("team", "ml")], "s3://artifacts"⟩

def runFinished : Run :=
  ⟨⟨"r1", none, some 1000, some 1500, "FINISHED", none, "s3://artifacts/r1"⟩, ⟨[], []⟩⟩

def runEndZero : Run :=
  ⟨⟨"r2", none, some 1000, some 0, "FINISHED", none, "s3://artifacts/r2"⟩, ⟨[], []⟩⟩

def runStartZero : Run :=
  ⟨⟨"r3", none, some 0, none, "RUNNING", none, "s3://artifacts/r3"⟩, ⟨[], []⟩⟩

def mvFoo2 : ModelVersion := ⟨"foo", "2", 10, 20, none, none, "None", none, [], []⟩

def mvFoo2b : ModelVersion :=
  ⟨"foo", "2", 30, 40, some "alice", some "r1", "Production", some "desc", [("k", "v")], ["champion"]⟩

def mvFoo3 : ModelVersion := ⟨"foo", "3", 10, 20, none, none, "None", none, [], []⟩

def mvV3 : ModelVersion := ⟨"m", "3", 1, 2, none, none, "stageA", none, [], []⟩

def mvV1 : ModelVersion := ⟨"m", "1", 1, 2, none, none, "stageB", none, [], []⟩

def rmM : RegisteredModel := ⟨"m", none, [], 1, 2, [mvV3, mvV1]⟩

def mvA1 : ModelVersion :=
  ⟨"modelA", "1", 100, 200, none, some "r1", "Production", none, [], []⟩

def rmA : RegisteredModel := ⟨"modelA", none, [], 100, 200, [mvA1]⟩

def pagesTwo : List (SearchPage Nat) := [⟨[1, 2], some "t"⟩, ⟨[3], none⟩]

/-! ## Supporting lemmas -/

/-- Unfolding equation of the traversal on a non-empty page list. -/
theorem traverse_cons {α : Type} (p : SearchPage α) (rest : List (SearchPage α)) :
    traverse_mlflow_search_func (p :: rest) =
      if tokenFalsy p.token then (p.items, 1)
      else (p.items ++ (traverse_mlflow_search_func rest).1,
            (traverse_mlflow_search_func rest).2 + 1) := rfl

/-- Run to completion of the traversal over a well-formed page list:
all items in page order, one fetch per page. -/
theorem traverse_eq_of_wf {α : Type} :
    ∀ pages : List (SearchPage α), wfPages pages = true →
      traverse_mlflow_search_func pages =
        (pages.flatMap SearchPage.items, pages.length)
  | [], h => by simp [wfPages] at h
  | [p], h => by
      simp only [wfPages] at h
      simp [traverse_cons, h]
  | p :: q :: rest, h => by
      simp only [wfPages, Bool.and_eq_true, Bool.not_eq_true'] at h
      have ih := traverse_eq_of_wf (q :: rest) h.2
      rw [traverse_cons, ih]
      simp [h.1]

/-- A string starting with `"http"` is non-empty. -/
theorem strEmpty_false_of_startswith_http (s : String)
    (h : pyStartswith s "http" = true) : strEmpty s = false := by
  unfold pyStartswith at h
  unfold strEmpty
  cases hs : s.toList with
  | nil => rw [hs] at h; simp [List.isPrefixOf] at h
  | cons c cs => simp

/-- A string other than `""` is non-empty. -/
theorem strEmpty_false_of_ne (b : String) (h : b ≠ "") : strEmpty b = false := by
  cases b with
  | mk data =>
    cases data with
    | nil => exact absurd rfl h
    | cons c cs => rfl

/-- Unfolding equation of the fallible traversal on a successful fetch. -/
theorem traverse_exc_cons_ok {α ε : Type} (p : SearchPage α)
    (rest : List (Except ε (SearchPage α))) :
    traverse_mlflow_search_func_exc (Except.ok p :: rest) =
      if tokenFalsy p.token then (p.items, none, 1)
      else (p.items ++ (traverse_mlflow_search_func_exc rest).1,
            (traverse_mlflow_search_func_exc rest).2.1,
            (traverse_mlflow_search_func_exc rest).2.2 + 1) := rfl

/-! ## Claim theorems -/

/-- C4: for a paginated search capability returning N items across P pages
(every page but the last carrying a truthy continuation token, the last an
empty one), the traversal yields exactly those N items in page order and
page-internal order and fetches exactly P times; a single empty page with
no token yields the empty sequence after exactly one fetch. -/
theorem traversal_yields_items_in_order_with_one_fetch_per_page {α : Type}
    (pages : List (SearchPage α)) (h : wfPages pages = true) :
    (traverse_mlflow_search_func pages).1 = pages.flatMap SearchPage.items ∧
    (traverse_mlflow_search_func pages).2 = pages.length ∧
    traverse_mlflow_search_func ([⟨[], none⟩] : List (SearchPage α)) = ([], 1) := by
  have e := traverse_eq_of_wf pages h
  exact ⟨by rw [e], by rw [e], rfl⟩

theorem traversal_yields_items_in_order_with_one_fetch_per_page_witness :
    wfPages pagesTwo = true ∧
    ((traverse_mlflow_search_func pagesTwo).1 = pagesTwo.flatMap SearchPage.items ∧
     (traverse_mlflow_search_func pagesTwo).2 = pagesTwo.length ∧
     traverse_mlflow_search_func ([⟨[], none⟩] : List (SearchPage Nat)) = ([], 1)) :=
  ⟨by decide,
   traversal_yields_items_in_order_with_one_fetch_per_page pagesTwo (by decide)⟩

/-- C8: an exception raised by the page-fetch capability at any page
propagates unchanged: the items of the pages fetched before the failure
stay delivered, the error is reported as-is, no retry happens (the failing
fetch is the last one), and nothing after the failing fetch is yielded. -/
theorem traversal_propagates_fetch_errors {α ε : Type}
    (pre : List (SearchPage α)) (e : ε) (rest : List (Except ε (SearchPage α)))
    (h : ∀ p ∈ pre, tokenFalsy p.token = false) :
    traverse_mlflow_search_func_exc (pre.map Except.ok ++ Except.error e :: rest) =
      (pre.flatMap SearchPage.items, some e, pre.length + 1) := by
  induction pre with
  | nil => rfl
  | cons p ps ih =>
    have hp : tokenFalsy p.token = false := h p (by simp)
    have ih2 := ih (fun q hq => h q (by simp [hq]))
    rw [List.map_cons, List.cons_append, traverse_exc_cons_ok, ih2]
    simp [hp]

theorem traversal_propagates_fetch_errors_witness :
    (∀ p ∈ ([⟨[1], some "t"⟩] : List (SearchPage Nat)), tokenFalsy p.token = false) ∧
    traverse_mlflow_search_func_exc
        (([⟨[1], some "t"⟩] : List (SearchPage Nat)).map Except.ok ++
          Except.error "boom" :: [Except.ok (⟨[9], none⟩ : SearchPage Nat)]) =
      ([1], some "boom", 2) :=
  ⟨by decide,
   traversal_propagates_fetch_errors [⟨[1], some "t"⟩] "boom"
     [Except.ok ⟨[9], none⟩] (by decide)⟩

/-- C9: laziness of the traversal generator.  (1) A resumption with
undelivered items of the current page left performs no fetch and just
delivers the next item; a fetch can therefore only happen once every item
of the current page has been consumed.  (2) A finished generator (falsy
token seen, buffer drained) performs no further fetch.  (3, 4) Fetching a
page whose token is falsy marks the generator finished, whether the page
carried items or not. -/
theorem traversal_generator_fetch_discipline :
    (∀ (α : Type) (g : GenState α) (x : α) (xs : List α), g.buffer = x :: xs →
       genStep g = (some x, ⟨xs, g.remaining, g.needFetch⟩, 0)) ∧
    (∀ (α : Type) (g : GenState α), g.buffer = [] → g.needFetch = false →
       genStep g = (none, g, 0)) ∧
    (∀ (α : Type) (p : SearchPage α) (rest : List (SearchPage α)) (x : α) (xs : List α),
       p.items = x :: xs → tokenFalsy p.token = true →
       genStep (⟨[], p :: rest, true⟩ : GenState α) = (some x, ⟨xs, rest, false⟩, 1)) ∧
    (∀ (α : Type) (p : SearchPage α) (rest : List (SearchPage α)),
       p.items = [] → tokenFalsy p.token = true →
       genStep (⟨[], p :: rest, true⟩ : GenState α) = (none, ⟨[], rest, false⟩, 1)) := by
  refine ⟨?_, ?_, ?_, ?_⟩
  · intro α g x xs hb
    obtain ⟨b, r, n⟩ := g
    cases hb
    rfl
  · intro α g hb hn
    obtain ⟨b, r, n⟩ := g
    cases hb
    cases hn
    rfl
  · intro α p rest x xs hi ht
    obtain ⟨items, tok⟩ := p
    simp only at hi ht
    cases hi
    simp [genStep, genFetchLoop, ht]
  · intro α p rest hi ht
    obtain ⟨items, tok⟩ := p
    simp only at hi ht
    cases hi
    simp [genStep, genFetchLoop, ht]

theorem traversal_generator_fetch_discipline_witness :
    genStep (⟨[10, 11], [⟨[3], none⟩], true⟩ : GenState Nat) =
      (some 10, ⟨[11], [⟨[3], none⟩], true⟩, 0) ∧
    genStep (⟨[], [⟨[3], none⟩], false⟩ : GenState Nat) =
      (none, ⟨[], [⟨[3], none⟩], false⟩, 0) ∧
    genStep (⟨[], [⟨[3, 4], none⟩], true⟩ : GenState Nat) =
      (some 3, ⟨[4], [], false⟩, 1) ∧
    genStep (⟨[], [⟨[], none⟩], true⟩ : GenState Nat) =
      (none, ⟨[], [], false⟩, 1) :=
  ⟨traversal_generator_fetch_discipline.1 Nat ⟨[10, 11], [⟨[3], none⟩], true⟩ 10 [11] rfl,
   traversal_generator_fetch_discipline.2.1 Nat ⟨[], [⟨[3], none⟩], false⟩ rfl rfl,
   traversal_generator_fetch_discipline.2.2.1 Nat ⟨[3, 4], none⟩ [] 3 [4] rfl rfl,
   traversal_generator_fetch_discipline.2.2.2 Nat ⟨[], none⟩ [] rfl rfl⟩

/-- C2 counterexample: with base external URL `http://host` configured and
a non-HTTP tracking URI, the run link is omitted entirely although the
claimed common rule (configured base URL wins) would produce one; the
model-version link from the same configuration does use the base URL. -/
theorem run_external_url_counterexample :
    cfgHost.base_external_url = some "http://host" ∧
    make_external_url_from_run clientFile expPlain runFinished = none ∧
    specExternalUrlRule cfgHost.base_external_url clientFile.tracking_uri
        ("/#/experiments/" ++ expPlain.experiment_id ++ "/runs/" ++ runFinished.info.run_id) =
      some "http://host/#/experiments/0/runs/r1" ∧
    make_external_url_from_run clientFile expPlain runFinished ≠
      specExternalUrlRule cfgHost.base_external_url clientFile.tracking_uri
        ("/#/experiments/" ++ expPlain.experiment_id ++ "/runs/" ++ runFinished.info.run_id) ∧
    make_external_url cfgHost clientFile mvFoo3 = some "http://host/#/models/foo/versions/3" := by
  refine ⟨rfl, ?_, ?_, ?_, ?_⟩ <;> decide

/-- C2 amended: the model-version URL uses the configured base external URL
when it is present and non-empty, else the tracking URI when that starts
with `"http"`, else it is omitted; the run URL ignores the configured base
entirely and uses only the tracking URI when that starts with `"http"`
(path `/#/experiments/` id `/runs/` id), else it is omitted.  With base
`http://host`, name `foo`, version `3`, the model-version URL is
`http://host/#/models/foo/versions/3`; with neither base nor HTTP tracking
URI it is absent. -/
theorem external_url_rule (cfg : MLflowConfig) (client : MlflowClientModel)
    (mv : ModelVersion) (experiment : Experiment) (run : Run) (b : String)
    (hb : cfg.base_external_url = some b) (hbne : b ≠ "") :
    make_external_url cfg client mv =
      some (pyRstripSlash b ++ "/#/models/" ++ mv.name ++ "/versions/" ++ mv.version) ∧
    (∀ cfg2 : MLflowConfig, truthyStr cfg2.base_external_url = false →
       make_external_url cfg2 client mv =
         (if pyStartswith client.tracking_uri "http" then
            some (pyRstripSlash client.tracking_uri ++ "/#/models/" ++ mv.name ++
              "/versions/" ++ mv.version)
          else none)) ∧
    make_external_url_from_run client experiment run =
      (if pyStartswith client.tracking_uri "http" then
         some (pyRstripSlash client.tracking_uri ++ "/#/experiments/" ++
           experiment.experiment_id ++ "/runs/" ++ run.info.run_id)
       else none) ∧
    make_external_url cfgHost clientFile mvFoo3 = some "http://host/#/models/foo/versions/3" ∧
    make_external_url cfgDefault clientFile mvFoo3 = none := by
  refine ⟨?_, ?_, rfl, by decide, by decide⟩
  · have hbe := strEmpty_false_of_ne b hbne
    simp [make_external_url, hb, truthyStr, hbe]
  · intro cfg2 h2
    by_cases hh : pyStartswith client.tracking_uri "http"
    · have hte := strEmpty_false_of_startswith_http client.tracking_uri hh
      simp [make_external_url, h2, get_base_external_url_from_tracking_uri, hh, hte]
    · simp [make_external_url, h2, get_base_external_url_from_tracking_uri, hh]

theorem external_url_rule_witness :
    (make_external_url cfgHost clientFile mvFoo3 =
      some (pyRstripSlash "http://host" ++ "/#/models/" ++ mvFoo3.name ++
        "/versions/" ++ mvFoo3.version) ∧
    (∀ cfg2 : MLflowConfig, truthyStr cfg2.base_external_url = false →
       make_external_url cfg2 clientFile mvFoo3 =
         (if pyStartswith clientFile.tracking_uri "http" then
            some (pyRstripSlash clientFile.tracking_uri ++ "/#/models/" ++ mvFoo3.name ++
              "/versions/" ++ mvFoo3.version)
          else none)) ∧
    make_external_url_from_run clientFile expPlain runFinished =
      (if pyStartswith clientFile.tracking_uri "http" then
         some (pyRstripSlash clientFile.tracking_uri ++ "/#/experiments/" ++
           expPlain.experiment_id ++ "/runs/" ++ runFinished.info.run_id)
       else none) ∧
    make_external_url cfgHost clientFile mvFoo3 = some "http://host/#/models/foo/versions/3" ∧
    make_external_url cfgDefault clientFile mvFoo3 = none) :=
  external_url_rule cfgHost clientFile mvFoo3 expPlain runFinished "http://host" rfl (by decide)

/-- C5 counterexample: a run whose end time is present but equal to `0` —
Python truthiness makes `if run.info.end_time:` skip the completion event,
so presence of the end time alone does not imply emission. -/
theorem run_completion_event_counterexample :
    runEndZero.info.end_time = some 0 ∧
    runEndZero.info.end_time ≠ none ∧
    get_run_event_workunit runEndZero = none := by
  refine ⟨rfl, by decide, by decide⟩

/-- C5 amended: a completion run-event record is emitted iff the run's end
time is present and non-zero; when emitted its duration is end minus start
and its result follows the three-way status rule (`FINISHED`→`SUCCESS`,
`FAILED`→`FAILURE`, anything else, e.g. `KILLED`, →`SKIPPED`); for
start=1000, end=1500, status `FINISHED` the event has duration 500 and
result `SUCCESS`. -/
theorem run_completion_event (run : Run) (s t : Int)
    (hs : run.info.start_time = some s) (ht : run.info.end_time = some t)
    (htz : t ≠ 0) :
    get_run_event_workunit run =
      some ⟨dataProcessInstanceUrn run.info.run_id,
        Aspect.dataProcessInstanceRunEvent
          ⟨"COMPLETE", t, convert_run_result_type run.info.status, platform, t - s⟩⟩ ∧
    (∀ r : Run, (get_run_event_workunit r).isSome = truthyInt r.info.end_time) ∧
    convert_run_result_type "FINISHED" = "SUCCESS" ∧
    convert_run_result_type "FAILED" = "FAILURE" ∧
    convert_run_result_type "KILLED" = "SKIPPED" ∧
    get_run_event_workunit runFinished =
      some ⟨dataProcessInstanceUrn "r1",
        Aspect.dataProcessInstanceRunEvent ⟨"COMPLETE", 1500, "SUCCESS", "mlflow", 500⟩⟩ := by
  refine ⟨?_, ?_, by decide, by decide, by decide, by decide⟩
  · simp [get_run_event_workunit, ht, hs, truthyInt, htz]
  · intro r
    by_cases hr : truthyInt r.info.end_time <;> simp [get_run_event_workunit, hr]

theorem run_completion_event_witness :
    (get_run_event_workunit runFinished =
      some ⟨dataProcessInstanceUrn runFinished.info.run_id,
        Aspect.dataProcessInstanceRunEvent
          ⟨"COMPLETE", 1500, convert_run_result_type runFinished.info.status,
           platform, 1500 - 1000⟩⟩ ∧
    (∀ r : Run, (get_run_event_workunit r).isSome = truthyInt r.info.end_time) ∧
    convert_run_result_type "FINISHED" = "SUCCESS" ∧
    convert_run_result_type "FAILED" = "FAILURE" ∧
    convert_run_result_type "KILLED" = "SKIPPED" ∧
    get_run_event_workunit runFinished =
      some ⟨dataProcessInstanceUrn "r1",
        Aspect.dataProcessInstanceRunEvent ⟨"COMPLETE", 1500, "SUCCESS", "mlflow", 500⟩⟩) :=
  run_completion_event runFinished 1000 1500 rfl rfl (by decide)

/-- C10 counterexample: a run whose start time is present but equal to `0`
— Python truthiness makes `run.info.start_time or int(time.time() * 1000)`
take the wall clock, so the emitted properties record differs between two
executions at different times even though the start time is present. -/
theorem run_properties_nondeterminism_counterexample :
    runStartZero.info.start_time = some 0 ∧
    runStartZero.info.start_time ≠ none ∧
    get_run_properties_workunit clientFile expPlain runStartZero 5 ≠
      get_run_properties_workunit clientFile expPlain runStartZero 6 := by
  refine ⟨rfl, by decide, by decide⟩

/-- C10 amended: when the run's start time is present and non-zero the
process-instance properties record does not depend on the wall clock (two
executions over the same snapshot agree); when the start time is absent the
record's created timestamp is the wall clock read at emission. -/
theorem run_properties_deterministic_when_start_nonzero
    (client : MlflowClientModel) (experiment : Experiment) (run : Run) (s : Int)
    (hs : run.info.start_time = some s) (hsz : s ≠ 0) :
    (∀ now1 now2 : Int,
       get_run_properties_workunit client experiment run now1 =
         get_run_properties_workunit client experiment run now2) ∧
    (∀ (r : Run) (now : Int), r.info.start_time = none →
       get_run_properties_workunit client experiment r now =
         ⟨dataProcessInstanceUrn r.info.run_id,
          Aspect.dataProcessInstanceProperties
            ⟨(if truthyStr r.info.run_name then r.info.run_name.getD "" else r.info.run_id),
             ⟨now,
              (if truthyStr r.info.user_id then
                 "urn:li:platformResource:" ++ r.info.user_id.getD ""
               else "")⟩,
             make_external_url_from_run client experiment r, []⟩⟩) := by
  constructor
  · intro now1 now2
    simp [get_run_properties_workunit, hs, truthyInt, hsz]
  · intro r now hr
    simp [get_run_properties_workunit, hr, truthyInt]

theorem run_properties_deterministic_when_start_nonzero_witness :
    get_run_properties_workunit clientFile expPlain runFinished 5 =
      get_run_properties_workunit clientFile expPlain runFinished 6 :=
  (run_properties_deterministic_when_start_nonzero clientFile expPlain runFinished
    1000 rfl (by decide)).1 5 6

/-- C3: evaluation at a failing input.  For an experiment carrying the note
tag, producing its container workunits leaves the experiment's tag mapping
changed: `getattr(experiment, "tags", {}) or {}` aliases the experiment's
own dictionary, so `pop("mlflow.note.content", None)` and the
`artifacts_location` assignment mutate the snapshot in place. -/
theorem experiment_tags_mutated_by_mapping :
    expNote.tags = [("mlflow.note.content", "note"), ("team", "ml")] ∧
    (get_experiment_container_workunit expNote).2.tags =
      [("team", "ml"), ("artifacts_location", "s3://artifacts")] ∧
    (get_experiment_container_workunit expNote).2.tags ≠ expNote.tags := by
  refine ⟨rfl, by decide, by decide⟩

/-- C1: evaluation at a failing input.  For a registered model with one
model version, the pipeline emits only the model-group record and the
version-set "latest" record: `if len(list(model_versions)) > 0:` exhausts
the model-version generator, so the per-version loop body never runs and
no model-properties, version-properties or stage-tag record is emitted. -/
theorem model_pipeline_emits_no_per_version_records :
    get_ml_model_workunits_for_model cfgDefault clientFile rmA [mvA1]
        (fun _ => runFinished) =
      some [get_ml_group_workunit cfgDefault rmA,
            ⟨get_version_set_urn rmA,
             Aspect.versionSetProperties
               ⟨make_ml_model_urn cfgDefault mvA1, "LEXICOGRAPHIC_STRING"⟩⟩] ∧
    ((get_ml_model_workunits_for_model cfgDefault clientFile rmA [mvA1]
        (fun _ => runFinished)).getD []).countP
      (fun wu => wu.aspect.isPerVersionRecord) = 0 ∧
    get_ml_model_properties_workunit cfgDefault clientFile rmA mvA1
        (get_mlflow_run (fun _ => runFinished) mvA1) ∉
      (get_ml_model_workunits_for_model cfgDefault clientFile rmA [mvA1]
        (fun _ => runFinished)).getD [] := by
  refine ⟨by decide, by decide, by decide⟩

/-- C6: the version-set properties record emitted after a model's versions
is built from the first element of the remote latest-versions list, with
the LEXICOGRAPHIC_STRING versioning scheme; for latest-versions
`[v3@stageA, v1@stageB]` it references `v3` (whose identifier differs from
`v1`'s), not a locally recomputed maximum. -/
theorem version_set_latest_is_first_latest_version
    (cfg : MLflowConfig) (client : MlflowClientModel) (rm : RegisteredModel)
    (v : ModelVersion) (vs : List ModelVersion)
    (search_versions : List ModelVersion) (get_run : String → Run)
    (hlv : rm.latest_versions = v :: vs) (hsv : search_versions ≠ []) :
    get_version_latest cfg rm (get_version_set_urn rm) =
      some ⟨get_version_set_urn rm,
        Aspect.versionSetProperties
          ⟨make_ml_model_urn cfg v, "LEXICOGRAPHIC_STRING"⟩⟩ ∧
    get_ml_model_workunits_for_model cfg client rm search_versions get_run =
      some (get_ml_group_workunit cfg rm ::
        ([] ++ [⟨get_version_set_urn rm,
          Aspect.versionSetProperties
            ⟨make_ml_model_urn cfg v, "LEXICOGRAPHIC_STRING"⟩⟩])) ∧
    make_ml_model_urn cfgDefault mvV3 ≠ make_ml_model_urn cfgDefault mvV1 := by
  have hlatest : get_version_latest cfg rm (get_version_set_urn rm) =
      some ⟨get_version_set_urn rm,
        Aspect.versionSetProperties
          ⟨make_ml_model_urn cfg v, "LEXICOGRAPHIC_STRING"⟩⟩ := by
    simp [get_version_latest, hlv]
  have hlen : 0 < search_versions.length := List.length_pos.mpr hsv
  refine ⟨hlatest, ?_, by decide⟩
  simp [get_ml_model_workunits_for_model, PyGen.drain, hlen, hlatest]

theorem version_set_latest_is_first_latest_version_witness :
    (get_version_latest cfgDefault rmM (get_version_set_urn rmM) =
      some ⟨get_version_set_urn rmM,
        Aspect.versionSetProperties
          ⟨make_ml_model_urn cfgDefault mvV3, "LEXICOGRAPHIC_STRING"⟩⟩ ∧
    get_ml_model_workunits_for_model cfgDefault clientFile rmM [mvV3, mvV1]
        (fun _ => runFinished) =
      some (get_ml_group_workunit cfgDefault rmM ::
        ([] ++ [⟨get_version_set_urn rmM,
          Aspect.versionSetProperties
            ⟨make_ml_model_urn cfgDefault mvV3, "LEXICOGRAPHIC_STRING"⟩⟩])) ∧
    make_ml_model_urn cfgDefault mvV3 ≠ make_ml_model_urn cfgDefault mvV1) :=
  version_set_latest_is_first_latest_version cfgDefault clientFile rmM mvV3 [mvV1]
    [mvV3, mvV1] (fun _ => runFinished) rfl (by decide)

/-- C7: the model-version identifier is a deterministic pure function of
the platform name, the registered-model name, the configured separator and
the version number — two extractions agreeing on those inputs produce the
same identifier, whatever the other fields of the snapshots — and for name
`foo`, version `2`, separator `_` the embedded model name is `foo_2`. -/
theorem ml_model_urn_deterministic (cfg1 cfg2 : MLflowConfig)
    (mv1 mv2 : ModelVersion) (hname : mv1.name = mv2.name)
    (hver : mv1.version = mv2.version)
    (hsep : cfg1.model_name_separator = cfg2.model_name_separator)
    (henv : cfg1.env = cfg2.env) :
    make_ml_model_urn cfg1 mv1 = make_ml_model_urn cfg2 mv2 ∧
    make_ml_model_urn cfgDefault mvFoo2 =
      builder_make_ml_model_urn "mlflow" "foo_2" "PROD" := by
  constructor
  · simp [make_ml_model_urn, hname, hver, hsep, henv]
  · decide

theorem ml_model_urn_deterministic_witness :
    (make_ml_model_urn cfgDefault mvFoo2 = make_ml_model_urn cfgDefault mvFoo2b ∧
    make_ml_model_urn cfgDefault mvFoo2 =
      builder_make_ml_model_urn "mlflow" "foo_2" "PROD") :=
  ml_model_urn_deterministic cfgDefault cfgDefault mvFoo2 mvFoo2b rfl rfl rfl rfl

end Mlflow
